import Mathlib

/-!
Shallow embedding of the chat-api socket layer (src/sockets/chatHandler.js)
together with the persisted data model (src/models/Room.js and the message
model). Handlers are pure functions from a server state and event arguments
to a new state plus the list of outbound emits. Mongo object ids are
modelled as natural numbers, timestamps as natural numbers, and the
socket.io room/broadcast machinery as an explicit subscription list plus a
set of live connections.
-/

namespace ChatApi

/-- One entry of a readBy list: the readBy subdocument schema
{odooId, readAt}. -/
structure ReadReceipt where
  odooId : String
  readAt : Nat
deriving DecidableEq

/-- A persisted message document (message model: roomId, applicationId,
senderId, sender, content, type, readBy, createdAt). -/
structure StoredMessage where
  msgId : Nat
  roomId : Nat
  applicationId : String
  senderId : String
  sender : String
  content : String
  msgType : String
  readBy : List ReadReceipt
  createdAt : Nat
deriving DecidableEq

/-- A persisted room document (src/models/Room.js: name, description,
applicationId, createdBy, isPrivate, participants, timestamps). -/
structure StoredRoom where
  roomId : Nat
  name : String
  description : String
  applicationId : String
  createdBy : String
  isPrivate : Bool
  participants : List String
  createdAt : Nat
deriving DecidableEq

/-- The value stored in the connectedUsers map for one socket id
(chatHandler.js line 13): username, senderId, applicationId, currentRoom.
Nullable JS fields are Option. -/
structure UserData where
  username : String
  senderId : String
  applicationId : Option String
  currentRoom : Option Nat
deriving DecidableEq

/-- The fields user:connect attaches directly to the socket object
(socket.username, socket.senderId, socket.applicationId); absent until a
user:connect event, hence Option. -/
structure SocketFields where
  username : Option String
  senderId : Option String
  applicationId : Option String
deriving DecidableEq

/-- JS Map.get, on an association list keyed by socket id. -/
def mapGet {α : Type} : List (String × α) → String → Option α
  | [], _ => none
  | p :: rest, k => if p.1 = k then some p.2 else mapGet rest k

/-- JS Map.set: replace the value at an existing key in place, otherwise
append the new binding. -/
def mapSet {α : Type} : List (String × α) → String → α → List (String × α)
  | [], k, v => [(k, v)]
  | p :: rest, k, v => if p.1 = k then (k, v) :: rest else p :: mapSet rest k v

/-- JS Map.delete. -/
def mapDelete {α : Type} : List (String × α) → String → List (String × α)
  | [], _ => []
  | p :: rest, k => if p.1 = k then mapDelete rest k else p :: mapDelete rest k

/-- JS `x || dflt` on a possibly-absent string: null/undefined and the
empty string are falsy. -/
def jsStr (o : Option String) (dflt : String) : String :=
  match o with
  | some v => if v = "" then dflt else v
  | none => dflt

/-- Where an emit is sent: socket.emit (one connection), io.to(room).emit
(whole room), socket.to(room).emit (room minus the sender socket), io.emit
(every connected socket). -/
inductive EmitTarget
  | toConn (sid : String)
  | toRoomAll (roomId : Nat)
  | toRoomExcept (roomId : Nat) (sid : String)
  | toAll
deriving DecidableEq

/-- The payloads the handlers emit. -/
inductive Payload
  | errorMsg (message : String)
  | roomsList (rooms : List StoredRoom)
  | roomJoined (roomId : Nat) (name : String) (description : String)
      (messages : List StoredMessage)
  | userJoined (username : String) (text : String)
  | userLeft (username : String) (text : String)
  | roomLeft
  | messageNew (m : StoredMessage)
  | messageReadSuccess (messageId : Nat)
  | messageReadNotice (messageId : Nat) (r : ReadReceipt)
  | messagesReadSuccess (messageIds : List Nat) (count : Nat)
  | messagesReadNotice (messageIds : List Nat) (r : ReadReceipt)
  | typingNotice (username : String)
  | stopTypingNotice (username : String)
  | roomCreated (roomId : Nat) (name : String) (description : String)
  | roomsNew (roomId : Nat) (name : String) (description : String)
      (createdAt : Nat)
  | roomUsers (users : List (String × String × String))
deriving DecidableEq

/-- One outbound emit: a target plus a payload. -/
structure Emit where
  target : EmitTarget
  payload : Payload
deriving DecidableEq

/-- The whole observable server state: the in-memory connectedUsers map,
the per-socket fields, the set of live (not yet disconnected) socket ids,
the socket.io room subscriptions, the persisted rooms and messages, and a
fresh-id counter standing in for Mongo object-id generation. -/
structure ServerState where
  connectedUsers : List (String × UserData)
  socketFields : List (String × SocketFields)
  live : List String
  subs : List (String × Nat)
  rooms : List StoredRoom
  messages : List StoredMessage
  nextId : Nat
deriving DecidableEq

/-- Room.findById. -/
def findRoom (rooms : List StoredRoom) (roomId : Nat) : Option StoredRoom :=
  rooms.find? (fun r => decide (r.roomId = roomId))

/-- Message.findById. -/
def findMessage (messages : List StoredMessage) (messageId : Nat) :
    Option StoredMessage :=
  messages.find? (fun m => decide (m.msgId = messageId))

/-- Message.find filtered by roomId, in store order. -/
def roomMessages (messages : List StoredMessage) (roomId : Nat) :
    List StoredMessage :=
  messages.filter (fun m => decide (m.roomId = roomId))

/-- Insert one message into a createdAt-descending list, keeping it
descending. -/
def insertDesc (m : StoredMessage) : List StoredMessage → List StoredMessage
  | [] => [m]
  | x :: xs =>
      if x.createdAt ≤ m.createdAt then m :: x :: xs else x :: insertDesc m xs

/-- Sort a message list by createdAt descending: the store applied to
.sort with createdAt -1. -/
def sortDesc : List StoredMessage → List StoredMessage
  | [] => []
  | x :: xs => insertDesc x (sortDesc xs)

/-- Message.find by room, sorted createdAt descending, limit 50
(chatHandler.js lines 57-60). -/
def fetchRecent (messages : List StoredMessage) (roomId : Nat) :
    List StoredMessage :=
  (sortDesc (roomMessages messages roomId)).take 50

/-- The room:join handler (chatHandler.js lines 23-79). saveOk says
whether the room.save() call for the participant append succeeds; a
rejected save is caught by the surrounding try/catch, which emits the
generic join failure error. -/
def roomJoin (s : ServerState) (sid : String) (roomId : Nat)
    (saveOk : Bool) : ServerState × List Emit :=
  match findRoom s.rooms roomId with
  | none => (s, [⟨.toConn sid, .errorMsg "Room not found"⟩])
  | some room =>
    let userData := mapGet s.connectedUsers sid
    let username := jsStr (userData.map (fun u => u.username)) "Anonymous"
    let senderId := jsStr (userData.map (fun u => u.senderId)) sid
    let currentRoomId := userData.bind (fun u => u.currentRoom)
    let leaveEmits : List Emit :=
      match currentRoomId with
      | some cur =>
          [⟨.toRoomAll cur, .userLeft username (username ++ " left the room")⟩]
      | none => []
    let subs1 :=
      match currentRoomId with
      | some cur => s.subs.filter (fun p => decide (¬(p.1 = sid ∧ p.2 = cur)))
      | none => s.subs
    let applicationId := userData.bind (fun u => u.applicationId)
    let subs2 := if (sid, roomId) ∈ subs1 then subs1 else subs1 ++ [(sid, roomId)]
    let users1 := mapSet s.connectedUsers sid
      ⟨username, senderId, applicationId, some roomId⟩
    let s1 := { s with connectedUsers := users1, subs := subs2 }
    if senderId ∈ room.participants then
      (s1, leaveEmits ++
        [⟨.toConn sid, .roomJoined room.roomId room.name room.description
            (fetchRecent s1.messages roomId).reverse⟩,
         ⟨.toRoomExcept roomId sid,
            .userJoined username (username ++ " joined the room")⟩])
    else if saveOk then
      let rooms1 := s.rooms.map (fun r =>
        if r.roomId = roomId
        then { r with participants := r.participants ++ [senderId] } else r)
      let s2 := { s1 with rooms := rooms1 }
      (s2, leaveEmits ++
        [⟨.toConn sid, .roomJoined room.roomId room.name room.description
            (fetchRecent s2.messages roomId).reverse⟩,
         ⟨.toRoomExcept roomId sid,
            .userJoined username (username ++ " joined the room")⟩])
    else
      (s1, leaveEmits ++ [⟨.toConn sid, .errorMsg "Failed to join room"⟩])

/-- The room:leave handler (chatHandler.js lines 82-98). -/
def roomLeave (s : ServerState) (sid : String) : ServerState × List Emit :=
  match mapGet s.connectedUsers sid with
  | none => (s, [])
  | some u =>
    match u.currentRoom with
    | none => (s, [])
    | some cur =>
      let users1 := mapSet s.connectedUsers sid { u with currentRoom := none }
      let subs1 := s.subs.filter (fun p => decide (¬(p.1 = sid ∧ p.2 = cur)))
      ({ s with connectedUsers := users1, subs := subs1 },
       [⟨.toRoomAll cur, .userLeft u.username (u.username ++ " left the room")⟩,
        ⟨.toConn sid, .roomLeft⟩])

/-- The user:connect handler (chatHandler.js lines 9-20): stores the
identity on the socket and in connectedUsers with no current room, and
answers with the list of public rooms of the application. -/
def userConnect (s : ServerState) (sid : String)
    (username senderId applicationId : String) : ServerState × List Emit :=
  let users1 := mapSet s.connectedUsers sid
    ⟨username, senderId, some applicationId, none⟩
  let fields1 := mapSet s.socketFields sid
    ⟨some username, some senderId, some applicationId⟩
  let publicRooms := s.rooms.filter (fun r =>
    decide (r.isPrivate = false ∧ r.applicationId = applicationId))
  ({ s with connectedUsers := users1, socketFields := fields1 },
   [⟨.toConn sid, .roomsList publicRooms⟩])

/-- The message:send handler (chatHandler.js lines 101-135). now is the
creation timestamp; the fresh-id counter plays the part of the generated
object id. -/
def messageSend (s : ServerState) (sid : String) (content : String)
    (now : Nat) : ServerState × List Emit :=
  match mapGet s.connectedUsers sid with
  | none => (s, [⟨.toConn sid, .errorMsg "You must join a room first"⟩])
  | some u =>
    match u.currentRoom with
    | none => (s, [⟨.toConn sid, .errorMsg "You must join a room first"⟩])
    | some cur =>
      let msg : StoredMessage :=
        ⟨s.nextId, cur, u.applicationId.getD "", u.senderId, u.username,
         content, "text", [], now⟩
      ({ s with messages := s.messages ++ [msg], nextId := s.nextId + 1 },
       [⟨.toRoomAll cur, .messageNew msg⟩])

/-- Does some receipt of this message belong to this reader? -/
def readsMessage (senderId : String) (m : StoredMessage) : Bool :=
  m.readBy.any (fun r => decide (r.odooId = senderId))

/-- The message:read handler (chatHandler.js lines 138-172). -/
def markRead (s : ServerState) (sid : String) (messageId : Nat)
    (now : Nat) : ServerState × List Emit :=
  match mapGet s.connectedUsers sid with
  | none => (s, [⟨.toConn sid, .errorMsg "User not authenticated"⟩])
  | some u =>
    if u.senderId = "" then
      (s, [⟨.toConn sid, .errorMsg "User not authenticated"⟩])
    else
      match findMessage s.messages messageId with
      | none => (s, [⟨.toConn sid, .errorMsg "Message not found"⟩])
      | some msg =>
        if readsMessage u.senderId msg then
          (s, [⟨.toConn sid, .messageReadSuccess messageId⟩])
        else
          let messages1 := s.messages.map (fun m =>
            if m.msgId = messageId
            then { m with readBy := m.readBy ++ [⟨u.senderId, now⟩] } else m)
          let notice : List Emit :=
            match u.currentRoom with
            | some cur =>
                [⟨.toRoomAll cur, .messageReadNotice messageId ⟨u.senderId, now⟩⟩]
            | none => []
          ({ s with messages := messages1 },
           notice ++ [⟨.toConn sid, .messageReadSuccess messageId⟩])

/-- Does Message.updateMany of the messages:read handler modify this
document: its id is listed and no readBy entry has the reader already. -/
def batchModifies (messageIds : List Nat) (senderId : String)
    (m : StoredMessage) : Bool :=
  messageIds.contains m.msgId && !(readsMessage senderId m)

/-- The messages:read handler (chatHandler.js lines 175-212).
Message.updateMany pushes a receipt onto every listed message lacking one
for this reader and reports the modified count. -/
def markReadMany (s : ServerState) (sid : String) (messageIds : List Nat)
    (now : Nat) : ServerState × List Emit :=
  match mapGet s.connectedUsers sid with
  | none => (s, [⟨.toConn sid, .errorMsg "User not authenticated"⟩])
  | some u =>
    if u.senderId = "" then
      (s, [⟨.toConn sid, .errorMsg "User not authenticated"⟩])
    else
      let modifiedCount :=
        (s.messages.filter (batchModifies messageIds u.senderId)).length
      let messages1 := s.messages.map (fun m =>
        if batchModifies messageIds u.senderId m
        then { m with readBy := m.readBy ++ [⟨u.senderId, now⟩] } else m)
      let notice : List Emit :=
        match u.currentRoom with
        | some cur =>
            if 0 < modifiedCount then
              [⟨.toRoomAll cur,
                 .messagesReadNotice messageIds ⟨u.senderId, now⟩⟩]
            else []
        | none => []
      ({ s with messages := messages1 },
       notice ++ [⟨.toConn sid, .messagesReadSuccess messageIds modifiedCount⟩])

/-- The user:typing handler (chatHandler.js lines 215-222). -/
def userTyping (s : ServerState) (sid : String) : ServerState × List Emit :=
  match mapGet s.connectedUsers sid with
  | none => (s, [])
  | some u =>
    match u.currentRoom with
    | none => (s, [])
    | some cur => (s, [⟨.toRoomExcept cur sid, .typingNotice u.username⟩])

/-- The user:stop-typing handler (chatHandler.js lines 224-231). -/
def userStopTyping (s : ServerState) (sid : String) :
    ServerState × List Emit :=
  match mapGet s.connectedUsers sid with
  | none => (s, [])
  | some u =>
    match u.currentRoom with
    | none => (s, [])
    | some cur => (s, [⟨.toRoomExcept cur sid, .stopTypingNotice u.username⟩])

/-- The socket fields seen by room:create, defaulting to all-absent when
the socket never sent user:connect. -/
def getFields (s : ServerState) (sid : String) : SocketFields :=
  (mapGet s.socketFields sid).getD ⟨none, none, none⟩

/-- appId resolution of room:create (chatHandler.js line 238):
applicationId or else socket.applicationId, JS-falsy empty strings
falling through. -/
def resolveAppId (s : ServerState) (sid : String)
    (applicationId : Option String) : Option String :=
  match applicationId with
  | some a => if a = "" then (getFields s sid).applicationId else some a
  | none => (getFields s sid).applicationId

/-- The room:create handler (chatHandler.js lines 234-279). -/
def roomCreate (s : ServerState) (sid : String) (name description : String)
    (isPrivate : Bool) (applicationId : Option String) (now : Nat) :
    ServerState × List Emit :=
  let f := getFields s sid
  let senderId := jsStr f.senderId sid
  match resolveAppId s sid applicationId with
  | none => (s, [⟨.toConn sid, .errorMsg "applicationId is required"⟩])
  | some appId =>
    if appId = "" then
      (s, [⟨.toConn sid, .errorMsg "applicationId is required"⟩])
    else if s.rooms.any (fun r =>
        decide (r.name = name ∧ r.applicationId = appId)) then
      (s, [⟨.toConn sid,
             .errorMsg "Room name already exists for this application"⟩])
    else
      let room : StoredRoom :=
        ⟨s.nextId, name, description, appId, senderId, isPrivate,
         [senderId], now⟩
      let broadcast : List Emit :=
        if isPrivate then []
        else [⟨.toAll, .roomsNew room.roomId room.name room.description
                room.createdAt⟩]
      ({ s with rooms := s.rooms ++ [room], nextId := s.nextId + 1 },
       ⟨.toConn sid, .roomCreated room.roomId room.name room.description⟩
         :: broadcast)

/-- The room:users handler (chatHandler.js lines 282-294): scans the whole
connectedUsers map and collects every entry whose currentRoom equals the
requesting sessions current room. -/
def roomUsersScan (s : ServerState) (sid : String) :
    ServerState × List Emit :=
  match mapGet s.connectedUsers sid with
  | none => (s, [])
  | some u =>
    match u.currentRoom with
    | none => (s, [])
    | some cur =>
      let users :=
        (s.connectedUsers.filter (fun p =>
          decide (p.2.currentRoom = some cur))).map (fun p =>
            (p.1, p.2.username, p.2.senderId))
      (s, [⟨.toConn sid, .roomUsers users⟩])

/-- The disconnect handler (chatHandler.js lines 297-312) combined with
the socket.io transport teardown: the handler notifies the room and
deletes the registry entry; the transport removes the closed socket from
every room and from the set of live connections. -/
def disconnect (s : ServerState) (sid : String) : ServerState × List Emit :=
  let emits : List Emit :=
    match mapGet s.connectedUsers sid with
    | none => []
    | some u =>
      match u.currentRoom with
      | some cur =>
          [⟨.toRoomAll cur, .userLeft u.username (u.username ++ " disconnected")⟩]
      | none => []
  ({ s with connectedUsers := mapDelete s.connectedUsers sid,
            live := s.live.filter (fun x => decide (¬ x = sid)),
            subs := s.subs.filter (fun p => decide (¬ p.1 = sid)) },
   emits)

/-- One inbound transport event, tagged with the socket id it arrives on.
Environment choices a real run would make (timestamps, success of the
best-effort save) are carried in the event. -/
inductive Event
  | userConnect (sid username senderId applicationId : String)
  | roomJoin (sid : String) (roomId : Nat) (saveOk : Bool)
  | roomLeave (sid : String)
  | messageSend (sid content : String) (now : Nat)
  | messageRead (sid : String) (messageId : Nat) (now : Nat)
  | messagesRead (sid : String) (messageIds : List Nat) (now : Nat)
  | typingStart (sid : String)
  | typingStop (sid : String)
  | roomCreate (sid name description : String) (isPrivate : Bool)
      (applicationId : Option String) (now : Nat)
  | roomUsers (sid : String)
  | disconnect (sid : String)
deriving DecidableEq

/-- Dispatch one event to its handler. -/
def step (s : ServerState) : Event → ServerState × List Emit
  | .userConnect sid u sd a => userConnect s sid u sd a
  | .roomJoin sid roomId saveOk => roomJoin s sid roomId saveOk
  | .roomLeave sid => roomLeave s sid
  | .messageSend sid content now => messageSend s sid content now
  | .messageRead sid messageId now => markRead s sid messageId now
  | .messagesRead sid messageIds now => markReadMany s sid messageIds now
  | .typingStart sid => userTyping s sid
  | .typingStop sid => userStopTyping s sid
  | .roomCreate sid n d p a now => roomCreate s sid n d p a now
  | .roomUsers sid => roomUsersScan s sid
  | .disconnect sid => disconnect s sid

/-- Run a list of events, dropping the emits. -/
def run (s : ServerState) : List Event → ServerState
  | [] => s
  | e :: rest => run (step s e).1 rest

/-- Is this emit delivered to connection c: only live sockets receive
anything; room-scoped emits additionally require a subscription, and
socket.to excludes the sender socket. -/
def delivered (s : ServerState) (e : Emit) (c : String) : Bool :=
  decide (c ∈ s.live) &&
    match e.target with
    | .toConn sid => decide (sid = c)
    | .toRoomAll r => decide ((c, r) ∈ s.subs)
    | .toRoomExcept r sid => decide ((c, r) ∈ s.subs) && !(decide (sid = c))
    | .toAll => true

/-! ### Map lemmas -/

theorem mapGet_mapSet_same {α : Type} (m : List (String × α)) (k : String)
    (v : α) : mapGet (mapSet m k v) k = some v := by
  induction m with
  | nil => simp [mapSet, mapGet]
  | cons p rest ih =>
      by_cases h : p.1 = k <;> simp [mapSet, mapGet, h, ih]

theorem mapGet_mapDelete_same {α : Type} (m : List (String × α))
    (k : String) : mapGet (mapDelete m k) k = none := by
  induction m with
  | nil => simp [mapDelete, mapGet]
  | cons p rest ih =>
      by_cases h : p.1 = k <;> simp [mapDelete, mapGet, h, ih]

/-! ### Concrete states used by witnesses and counterexamples -/

/-- A public room of tenant app1 whose only participant is u9. -/
def roomA : StoredRoom := ⟨1, "general", "chat", "app1", "u9", false, ["u9"], 5⟩

/-- A state with one live connected user alice (u1, tenant app1, in no
room) and the single room roomA. -/
def stateA : ServerState :=
  { connectedUsers := [("s1", ⟨"alice", "u1", some "app1", none⟩)],
    socketFields := [("s1", ⟨some "alice", some "u1", some "app1"⟩)],
    live := ["s1"],
    subs := [],
    rooms := [roomA],
    messages := [],
    nextId := 10 }

/-! ### C5: joining a room id absent from the store -/

/-- Claim C5: a join with a roomId that does not exist in the store leaves
the whole state unchanged, emits exactly one error event addressed to the
requesting connection alone (so no room receives any broadcast), and in
particular leaves the requesters registry entry untouched. -/
theorem join_nonexistent_room_fails (s : ServerState) (sid : String)
    (roomId : Nat) (saveOk : Bool) (h : ∀ r ∈ s.rooms, r.roomId ≠ roomId) :
    (roomJoin s sid roomId saveOk).1 = s ∧
    (roomJoin s sid roomId saveOk).2 =
      [⟨.toConn sid, .errorMsg "Room not found"⟩] ∧
    (∀ em ∈ (roomJoin s sid roomId saveOk).2, em.target = .toConn sid) ∧
    mapGet (roomJoin s sid roomId saveOk).1.connectedUsers sid =
      mapGet s.connectedUsers sid := by
  have hf : findRoom s.rooms roomId = none := by
    apply List.find?_eq_none.mpr
    intro r hr
    simpa using h r hr
  refine ⟨?_, ?_, ?_, ?_⟩ <;> simp [roomJoin, hf]

/-- Witness for join_nonexistent_room_fails at the concrete state stateA,
whose only room has id 1, joining id 2. -/
theorem join_nonexistent_room_fails_witness :
    (∀ r ∈ stateA.rooms, r.roomId ≠ 2) ∧
    ((roomJoin stateA "s1" 2 true).1 = stateA ∧
     (roomJoin stateA "s1" 2 true).2 =
       [⟨.toConn "s1", .errorMsg "Room not found"⟩] ∧
     (∀ em ∈ (roomJoin stateA "s1" 2 true).2, em.target = .toConn "s1") ∧
     mapGet (roomJoin stateA "s1" 2 true).1.connectedUsers "s1" =
       mapGet stateA.connectedUsers "s1") :=
  ⟨by decide, join_nonexistent_room_fails stateA "s1" 2 true (by decide)⟩

/-! ### C1: failure of the participant-append save during join -/

/-- Counterexample to claim C1: in stateA (room 1 exists and u1 is not
yet a participant) a join whose participant-append save fails emits only
the generic join error to the joiner: no room:joined payload reaches the
joiner and no user:joined notice reaches the room, so the persistence
failure does abort the join, contrary to the claim. -/
theorem join_save_failure_loses_join_cex :
    (roomJoin stateA "s1" 1 false).2 =
      [⟨.toConn "s1", .errorMsg "Failed to join room"⟩] ∧
    (roomJoin stateA "s1" 1 false).1.rooms = stateA.rooms := by
  decide

/-- Claim C1 amended: when the room exists but the participant-append
save fails, the join is aborted rather than completed: the persisted
rooms are unchanged, the emitted events are at most a user-left notice
for the previous room followed by the join-failure error, no room:joined
and no user:joined event is emitted, while the registry entry (updated
before the failing save) already points at the new room. -/
theorem join_save_failure_aborts_join (s : ServerState) (sid : String)
    (roomId : Nat) (room : StoredRoom)
    (hroom : findRoom s.rooms roomId = some room)
    (hnp : jsStr ((mapGet s.connectedUsers sid).map (fun u => u.senderId))
      sid ∉ room.participants) :
    (roomJoin s sid roomId false).1.rooms = s.rooms ∧
    (∃ es, (roomJoin s sid roomId false).2 =
        es ++ [⟨.toConn sid, .errorMsg "Failed to join room"⟩] ∧
      ∀ em ∈ es, ∃ cur u t, em = ⟨.toRoomAll cur, .userLeft u t⟩) ∧
    (∀ em ∈ (roomJoin s sid roomId false).2,
      ∀ rid nm d ms, em.payload ≠ .roomJoined rid nm d ms) ∧
    (∀ em ∈ (roomJoin s sid roomId false).2,
      ∀ u t, em.payload ≠ .userJoined u t) ∧
    (∃ u, mapGet (roomJoin s sid roomId false).1.connectedUsers sid =
        some u ∧ u.currentRoom = some roomId) := by
  rcases hu : mapGet s.connectedUsers sid with _ | u
  · have hnp1 : jsStr none sid ∉ room.participants := by simpa [hu] using hnp
    refine ⟨?_, ⟨[], ?_, ?_⟩, ?_, ?_, ?_⟩ <;>
      simp [roomJoin, hroom, hu, hnp1, mapGet_mapSet_same]
  · have hnp1 : jsStr (some u.senderId) sid ∉ room.participants := by
      simpa [hu] using hnp
    rcases hcur : u.currentRoom with _ | cur
    · refine ⟨?_, ⟨[], ?_, ?_⟩, ?_, ?_, ?_⟩ <;>
        simp [roomJoin, hroom, hu, hcur, hnp1, mapGet_mapSet_same]
    · refine ⟨?_,
        ⟨[⟨.toRoomAll cur, .userLeft (jsStr (some u.username) "Anonymous")
            (jsStr (some u.username) "Anonymous" ++ " left the room")⟩],
          ?_, ?_⟩, ?_, ?_, ?_⟩ <;>
        simp [roomJoin, hroom, hu, hcur, hnp1, mapGet_mapSet_same]

/-- Witness for join_save_failure_aborts_join at stateA joining room 1
with a failing save. -/
theorem join_save_failure_aborts_join_witness :
    (findRoom stateA.rooms 1 = some roomA ∧
     jsStr ((mapGet stateA.connectedUsers "s1").map (fun u => u.senderId))
       "s1" ∉ roomA.participants) ∧
    ((roomJoin stateA "s1" 1 false).1.rooms = stateA.rooms ∧
     (∃ es, (roomJoin stateA "s1" 1 false).2 =
         es ++ [⟨.toConn "s1", .errorMsg "Failed to join room"⟩] ∧
       ∀ em ∈ es, ∃ cur u t, em = ⟨.toRoomAll cur, .userLeft u t⟩) ∧
     (∀ em ∈ (roomJoin stateA "s1" 1 false).2,
       ∀ rid nm d ms, em.payload ≠ .roomJoined rid nm d ms) ∧
     (∀ em ∈ (roomJoin stateA "s1" 1 false).2,
       ∀ u t, em.payload ≠ .userJoined u t) ∧
     (∃ u, mapGet (roomJoin stateA "s1" 1 false).1.connectedUsers "s1" =
         some u ∧ u.currentRoom = some 1)) :=
  ⟨⟨by decide, by decide⟩,
   join_save_failure_aborts_join stateA "s1" 1 roomA (by decide) (by decide)⟩

/-! ### C3: the room:users listing -/

/-- A state like stateA but with alice currently in room 1. -/
def stateB : ServerState :=
  { connectedUsers := [("s1", ⟨"alice", "u1", some "app1", some 1⟩)],
    socketFields := [("s1", ⟨some "alice", some "u1", some "app1"⟩)],
    live := ["s1"],
    subs := [("s1", 1)],
    rooms := [roomA],
    messages := [],
    nextId := 10 }

/-- Counterexample to claim C3: in stateB the requester s1 is the only
session in room 1, so a listing that excluded the requester would be
empty; the handler instead answers with a list containing the requesters
own session. -/
theorem room_users_includes_requester_cex :
    (roomUsersScan stateB "s1").2 =
      [⟨.toConn "s1", .roomUsers [("s1", "alice", "u1")]⟩] ∧
    (roomUsersScan stateB "s1").2 ≠
      [⟨.toConn "s1", .roomUsers []⟩] := by
  decide

/-- Claim C3 amended: for a requester whose session has a current room,
room:users answers the requester with exactly the sessions of the
Connection Registry whose currentRoom equals the requesters current room,
the requesters own session included (not excluded). -/
theorem room_users_lists_every_session_in_room (s : ServerState)
    (sid : String) (u : UserData) (cur : Nat)
    (hu : mapGet s.connectedUsers sid = some u)
    (hcur : u.currentRoom = some cur) :
    ∃ users, (roomUsersScan s sid).2 = [⟨.toConn sid, .roomUsers users⟩] ∧
      ∀ x, x ∈ users ↔ ∃ p ∈ s.connectedUsers,
        p.2.currentRoom = some cur ∧ x = (p.1, p.2.username, p.2.senderId) := by
  refine ⟨(s.connectedUsers.filter (fun p =>
      decide (p.2.currentRoom = some cur))).map (fun p =>
        (p.1, p.2.username, p.2.senderId)),
    by simp [roomUsersScan, hu, hcur], ?_⟩
  intro x
  simp only [List.mem_map, List.mem_filter, decide_eq_true_eq]
  constructor
  · rintro ⟨p, ⟨hp, hroom⟩, rfl⟩
    exact ⟨p, hp, hroom, rfl⟩
  · rintro ⟨p, hp, hroom, rfl⟩
    exact ⟨p, ⟨hp, hroom⟩, rfl⟩

/-- Witness for room_users_lists_every_session_in_room at stateB. -/
theorem room_users_lists_every_session_in_room_witness :
    (mapGet stateB.connectedUsers "s1" =
       some ⟨"alice", "u1", some "app1", some 1⟩ ∧
     UserData.currentRoom ⟨"alice", "u1", some "app1", some 1⟩ = some 1) ∧
    (∃ users, (roomUsersScan stateB "s1").2 =
        [⟨.toConn "s1", .roomUsers users⟩] ∧
      ∀ x, x ∈ users ↔ ∃ p ∈ stateB.connectedUsers,
        p.2.currentRoom = some 1 ∧ x = (p.1, p.2.username, p.2.senderId)) :=
  ⟨⟨by decide, by decide⟩,
   room_users_lists_every_session_in_room stateB "s1"
     ⟨"alice", "u1", some "app1", some 1⟩ 1 (by decide) (by decide)⟩

/-! ### Facts about a successful join -/

/-- After a join whose save succeeds, the registry entry of the joiner
holds the resolved identity and the new room. -/
theorem roomJoin_true_registry (s : ServerState) (sid : String)
    (roomId : Nat) (room : StoredRoom)
    (hroom : findRoom s.rooms roomId = some room) :
    (roomJoin s sid roomId true).1.connectedUsers =
      mapSet s.connectedUsers sid
        ⟨jsStr ((mapGet s.connectedUsers sid).map (fun u => u.username))
           "Anonymous",
         jsStr ((mapGet s.connectedUsers sid).map (fun u => u.senderId)) sid,
         (mapGet s.connectedUsers sid).bind (fun u => u.applicationId),
         some roomId⟩ := by
  simp only [roomJoin, hroom]
  split <;> simp

/-- A successful join leaves the message store unchanged. -/
theorem roomJoin_true_messages (s : ServerState) (sid : String)
    (roomId : Nat) (room : StoredRoom)
    (hroom : findRoom s.rooms roomId = some room) :
    (roomJoin s sid roomId true).1.messages = s.messages := by
  simp only [roomJoin, hroom]
  split <;> simp

/-- The emits of a join whose save succeeds: possibly a user-left notice
for the previous room, then room:joined carrying the most recent fifty
messages in ascending order to the joiner alone, then a user:joined
notice to the rest of the room. -/
theorem roomJoin_true_emits (s : ServerState) (sid : String)
    (roomId : Nat) (room : StoredRoom)
    (hroom : findRoom s.rooms roomId = some room) :
    ∃ es, (roomJoin s sid roomId true).2 = es ++
        [⟨.toConn sid, .roomJoined room.roomId room.name room.description
            (fetchRecent s.messages roomId).reverse⟩,
         ⟨.toRoomExcept roomId sid,
            .userJoined
              (jsStr ((mapGet s.connectedUsers sid).map
                (fun u => u.username)) "Anonymous")
              ((jsStr ((mapGet s.connectedUsers sid).map
                (fun u => u.username)) "Anonymous") ++ " joined the room")⟩] ∧
      ∀ em ∈ es, ∃ cur u t, em = ⟨.toRoomAll cur, .userLeft u t⟩ := by
  rcases hu : mapGet s.connectedUsers sid with _ | u
  · refine ⟨[], ?_, by simp⟩
    simp only [roomJoin, hroom, hu]
    split <;> simp
  · rcases hcur : u.currentRoom with _ | cur
    · refine ⟨[], ?_, by simp⟩
      simp only [roomJoin, hroom, hu, hcur]
      split <;> simp [hu, hcur]
    · refine ⟨[⟨.toRoomAll cur,
        .userLeft (jsStr (some u.username) "Anonymous")
          (jsStr (some u.username) "Anonymous" ++ " left the room")⟩],
        ?_, by simp⟩
      simp only [roomJoin, hroom, hu, hcur]
      split <;> simp [hu, hcur]

/-- find? after a keyed conditional update that preserves the key. -/
theorem find?_keyed_update {α : Type} (key : α → Nat) (l : List α) (k : Nat)
    (f : α → α) (hf : ∀ x, key (f x) = key x) :
    (l.map (fun x => if key x = k then f x else x)).find?
        (fun x => decide (key x = k)) =
      (l.find? (fun x => decide (key x = k))).map f := by
  induction l with
  | nil => simp
  | cons x rest ih =>
      by_cases h : key x = k
      · simp [List.find?_cons, h, hf]
      · simp [List.find?_cons, h, ih]

/-- Looking a room up after a keyed conditional update of the store. -/
theorem findRoom_update (rooms : List StoredRoom) (roomId : Nat)
    (f : StoredRoom → StoredRoom) (hf : ∀ r, (f r).roomId = r.roomId) :
    findRoom (rooms.map (fun r => if r.roomId = roomId then f r else r))
      roomId = (findRoom rooms roomId).map f := by
  unfold findRoom
  exact find?_keyed_update (fun r => r.roomId) rooms roomId f hf

/-- After a join whose save succeeds, the joined room still exists and
the joiners resolved identity is among its participants; its participant
list either was left alone (already a participant) or had exactly the
joiner appended. -/
theorem roomJoin_true_participants (s : ServerState) (sid : String)
    (roomId : Nat) (room : StoredRoom)
    (hroom : findRoom s.rooms roomId = some room) :
    ∃ r, findRoom (roomJoin s sid roomId true).1.rooms roomId = some r ∧
      r.name = room.name ∧ r.isPrivate = room.isPrivate ∧
      jsStr ((mapGet s.connectedUsers sid).map (fun u => u.senderId)) sid
        ∈ r.participants ∧
      (r.participants = room.participants ∨
       r.participants = room.participants ++
         [jsStr ((mapGet s.connectedUsers sid).map (fun u => u.senderId)) sid]) := by
  simp only [roomJoin, hroom]
  split
  · next hmem =>
      exact ⟨room, by simpa using hroom, rfl, rfl, hmem, Or.inl rfl⟩
  · next hmem =>
      refine ⟨{ room with participants := room.participants ++
        [jsStr ((mapGet s.connectedUsers sid).map (fun u => u.senderId)) sid] },
        ?_, rfl, rfl, by simp, Or.inr rfl⟩
      have := findRoom_update s.rooms roomId (fun r =>
        { r with participants := r.participants ++
          [jsStr ((mapGet s.connectedUsers sid).map (fun u => u.senderId)) sid] })
        (fun r => rfl)
      simp [this, hroom]

/-! ### C8: join then leave, roster monotonicity -/

/-- Claim C8: leave never modifies the persisted participant set of any
room, and a join (with successful save) followed immediately by a leave
leaves the session with no current room, removes the connection from the
rooms broadcast group, and keeps the persisted room store exactly as the
join left it. -/
theorem join_then_leave_roster_monotone (s : ServerState) (sid : String)
    (roomId : Nat) (room : StoredRoom)
    (hroom : findRoom s.rooms roomId = some room) :
    (∀ t c, (roomLeave t c).1.rooms = t.rooms) ∧
    (∃ u, mapGet
        (roomLeave (roomJoin s sid roomId true).1 sid).1.connectedUsers sid =
        some u ∧ u.currentRoom = none) ∧
    (sid, roomId) ∉ (roomLeave (roomJoin s sid roomId true).1 sid).1.subs ∧
    (roomLeave (roomJoin s sid roomId true).1 sid).1.rooms =
      (roomJoin s sid roomId true).1.rooms := by
  have hleave : ∀ t c, (roomLeave t c).1.rooms = t.rooms := by
    intro t c
    rcases h : mapGet t.connectedUsers c with _ | u
    · simp [roomLeave, h]
    · rcases hc : u.currentRoom with _ | cur <;> simp [roomLeave, h, hc]
  have hreg := roomJoin_true_registry s sid roomId room hroom
  have hget : mapGet (roomJoin s sid roomId true).1.connectedUsers sid =
      some ⟨jsStr ((mapGet s.connectedUsers sid).map (fun u => u.username))
          "Anonymous",
        jsStr ((mapGet s.connectedUsers sid).map (fun u => u.senderId)) sid,
        (mapGet s.connectedUsers sid).bind (fun u => u.applicationId),
        some roomId⟩ := by
    rw [hreg]; exact mapGet_mapSet_same _ _ _
  refine ⟨hleave, ?_, ?_, hleave _ _⟩
  · refine ⟨⟨jsStr ((mapGet s.connectedUsers sid).map (fun u => u.username))
        "Anonymous",
      jsStr ((mapGet s.connectedUsers sid).map (fun u => u.senderId)) sid,
      (mapGet s.connectedUsers sid).bind (fun u => u.applicationId),
      none⟩, ?_, rfl⟩
    simp only [roomLeave, hget]
    exact mapGet_mapSet_same _ _ _
  · simp only [roomLeave, hget]
    simp [List.mem_filter]

/-- Witness for join_then_leave_roster_monotone at stateA joining and
leaving room 1. -/
theorem join_then_leave_roster_monotone_witness :
    findRoom stateA.rooms 1 = some roomA ∧
    ((∀ t c, (roomLeave t c).1.rooms = t.rooms) ∧
     (∃ u, mapGet
         (roomLeave (roomJoin stateA "s1" 1 true).1 "s1").1.connectedUsers
         "s1" = some u ∧ u.currentRoom = none) ∧
     ("s1", 1) ∉ (roomLeave (roomJoin stateA "s1" 1 true).1 "s1").1.subs ∧
     (roomLeave (roomJoin stateA "s1" 1 true).1 "s1").1.rooms =
       (roomJoin stateA "s1" 1 true).1.rooms) :=
  ⟨by decide, join_then_leave_roster_monotone stateA "s1" 1 roomA (by decide)⟩

/-! ### C10: join never checks room visibility -/

/-- A private room of tenant app1. -/
def roomP : StoredRoom := ⟨3, "secret", "hidden", "app1", "u9", true, ["u9"], 5⟩

/-- A state with one live connected user alice, the private room roomP
and one message in it. -/
def stateP : ServerState :=
  { connectedUsers := [("s1", ⟨"alice", "u1", some "app1", none⟩)],
    socketFields := [("s1", ⟨some "alice", some "u1", some "app1"⟩)],
    live := ["s1"],
    subs := [],
    rooms := [roomP],
    messages := [⟨7, 3, "app1", "u9", "bob", "psst", "text", [], 1⟩],
    nextId := 10 }

/-- Claim C10: join never consults visibility: any stored room, a private
one included, is joinable by any connection that supplies its id — the
rooms recent messages are sent back to the joiner and the joiners
resolved identity ends up in the persisted participant set. -/
theorem join_ignores_privacy (s : ServerState) (sid : String)
    (roomId : Nat) (room : StoredRoom)
    (hroom : findRoom s.rooms roomId = some room)
    (hpriv : room.isPrivate = true) :
    (∃ es, (roomJoin s sid roomId true).2 = es ++
        [⟨.toConn sid, .roomJoined room.roomId room.name room.description
            (fetchRecent s.messages roomId).reverse⟩,
         ⟨.toRoomExcept roomId sid,
            .userJoined
              (jsStr ((mapGet s.connectedUsers sid).map
                (fun u => u.username)) "Anonymous")
              ((jsStr ((mapGet s.connectedUsers sid).map
                (fun u => u.username)) "Anonymous") ++ " joined the room")⟩]) ∧
    (∃ r, findRoom (roomJoin s sid roomId true).1.rooms roomId = some r ∧
      r.isPrivate = true ∧
      jsStr ((mapGet s.connectedUsers sid).map (fun u => u.senderId)) sid
        ∈ r.participants) := by
  obtain ⟨es, hes, -⟩ := roomJoin_true_emits s sid roomId room hroom
  obtain ⟨r, hr, -, hrp, hmem, -⟩ :=
    roomJoin_true_participants s sid roomId room hroom
  exact ⟨⟨es, hes⟩, ⟨r, hr, by rw [hrp, hpriv], hmem⟩⟩

/-- Witness for join_ignores_privacy at stateP joining the private
room 3. -/
theorem join_ignores_privacy_witness :
    (findRoom stateP.rooms 3 = some roomP ∧ roomP.isPrivate = true) ∧
    ((∃ es, (roomJoin stateP "s1" 3 true).2 = es ++
        [⟨.toConn "s1", .roomJoined roomP.roomId roomP.name roomP.description
            (fetchRecent stateP.messages 3).reverse⟩,
         ⟨.toRoomExcept 3 "s1",
            .userJoined
              (jsStr ((mapGet stateP.connectedUsers "s1").map
                (fun u => u.username)) "Anonymous")
              ((jsStr ((mapGet stateP.connectedUsers "s1").map
                (fun u => u.username)) "Anonymous") ++ " joined the room")⟩]) ∧
     (∃ r, findRoom (roomJoin stateP "s1" 3 true).1.rooms 3 = some r ∧
       r.isPrivate = true ∧
       jsStr ((mapGet stateP.connectedUsers "s1").map (fun u => u.senderId))
         "s1" ∈ r.participants)) :=
  ⟨⟨by decide, by decide⟩,
   join_ignores_privacy stateP "s1" 3 roomP (by decide) (by decide)⟩

/-! ### C7: the recent-message history returned on join -/

/-- Inserting an element strictly older than everything in the list puts
it at the very end. -/
theorem insertDesc_append (m : StoredMessage) (l : List StoredMessage)
    (h : ∀ x ∈ l, m.createdAt < x.createdAt) : insertDesc m l = l ++ [m] := by
  induction l with
  | nil => simp [insertDesc]
  | cons x xs ih =>
      have hx := h x (by simp)
      have hle : ¬ (x.createdAt ≤ m.createdAt) := by omega
      simp only [insertDesc, if_neg hle, List.cons_append, List.cons.injEq,
        true_and]
      exact ih (fun y hy => h y (List.mem_cons_of_mem _ hy))

/-- Sorting a strictly ascending list into descending order reverses it. -/
theorem sortDesc_of_ascending (l : List StoredMessage)
    (h : l.Pairwise (fun a b => a.createdAt < b.createdAt)) :
    sortDesc l = l.reverse := by
  induction l with
  | nil => simp [sortDesc]
  | cons x xs ih =>
      rcases List.pairwise_cons.mp h with ⟨hx, hxs⟩
      simp only [sortDesc, ih hxs, List.reverse_cons]
      exact insertDesc_append x xs.reverse
        (fun y hy => hx y (List.mem_reverse.mp hy))

/-- Claim C7: on a successful join, the history carried by the
room:joined event sent to the joining connection — and room:joined goes
to the joining connection only — is the last-fifty ascending suffix of
the rooms messages: fetching in descending creation order with limit
fifty and reversing equals dropping all but the last fifty of the
ascending room list. -/
theorem join_history_is_last_fifty (s : ServerState) (sid : String)
    (roomId : Nat) (room : StoredRoom)
    (hroom : findRoom s.rooms roomId = some room)
    (hasc : (roomMessages s.messages roomId).Pairwise
      (fun a b => a.createdAt < b.createdAt)) :
    (∃ es, (roomJoin s sid roomId true).2 = es ++
        [⟨.toConn sid, .roomJoined room.roomId room.name room.description
            ((roomMessages s.messages roomId).drop
              ((roomMessages s.messages roomId).length - 50))⟩,
         ⟨.toRoomExcept roomId sid,
            .userJoined
              (jsStr ((mapGet s.connectedUsers sid).map
                (fun u => u.username)) "Anonymous")
              ((jsStr ((mapGet s.connectedUsers sid).map
                (fun u => u.username)) "Anonymous") ++ " joined the room")⟩] ∧
      ∀ em ∈ es, ∃ cur u t, em = ⟨.toRoomAll cur, .userLeft u t⟩) ∧
    (∀ em ∈ (roomJoin s sid roomId true).2, ∀ rid nm d ms,
      em.payload = .roomJoined rid nm d ms → em.target = .toConn sid) := by
  have hfetch : (fetchRecent s.messages roomId).reverse =
      (roomMessages s.messages roomId).drop
        ((roomMessages s.messages roomId).length - 50) := by
    rw [fetchRecent, sortDesc_of_ascending _ hasc,
      ← List.rtake_eq_reverse_take_reverse, List.rtake]
  obtain ⟨es, hes, hall⟩ := roomJoin_true_emits s sid roomId room hroom
  rw [hfetch] at hes
  refine ⟨⟨es, hes, hall⟩, ?_⟩
  intro em hem rid nm d ms hpl
  rw [hes] at hem
  rcases List.mem_append.mp hem with hin | hin
  · obtain ⟨cur, u, t, rfl⟩ := hall em hin
    simp at hpl
  · simp only [List.mem_cons, List.not_mem_nil, or_false] at hin
    rcases hin with rfl | rfl
    · rfl
    · simp at hpl

/-- A state with the public room roomA holding two messages with
ascending creation times. -/
def stateM : ServerState :=
  { connectedUsers := [("s1", ⟨"alice", "u1", some "app1", none⟩)],
    socketFields := [("s1", ⟨some "alice", some "u1", some "app1"⟩)],
    live := ["s1"],
    subs := [],
    rooms := [roomA],
    messages := [⟨20, 1, "app1", "u9", "bob", "one", "text", [], 1⟩,
                 ⟨21, 1, "app1", "u9", "bob", "two", "text", [], 2⟩],
    nextId := 30 }

/-- Witness for join_history_is_last_fifty at stateM joining room 1. -/
theorem join_history_is_last_fifty_witness :
    (findRoom stateM.rooms 1 = some roomA ∧
     (roomMessages stateM.messages 1).Pairwise
       (fun a b => a.createdAt < b.createdAt)) ∧
    ((∃ es, (roomJoin stateM "s1" 1 true).2 = es ++
        [⟨.toConn "s1", .roomJoined roomA.roomId roomA.name roomA.description
            ((roomMessages stateM.messages 1).drop
              ((roomMessages stateM.messages 1).length - 50))⟩,
         ⟨.toRoomExcept 1 "s1",
            .userJoined
              (jsStr ((mapGet stateM.connectedUsers "s1").map
                (fun u => u.username)) "Anonymous")
              ((jsStr ((mapGet stateM.connectedUsers "s1").map
                (fun u => u.username)) "Anonymous") ++ " joined the room")⟩] ∧
      ∀ em ∈ es, ∃ cur u t, em = ⟨.toRoomAll cur, .userLeft u t⟩) ∧
     (∀ em ∈ (roomJoin stateM "s1" 1 true).2, ∀ rid nm d ms,
       em.payload = .roomJoined rid nm d ms → em.target = .toConn "s1")) :=
  ⟨⟨by decide, by decide⟩,
   join_history_is_last_fifty stateM "s1" 1 roomA (by decide) (by decide)⟩

/-! ### C2: single read-mark idempotence -/

/-- Looking a message up after a keyed conditional update of the store. -/
theorem findMessage_update (messages : List StoredMessage) (messageId : Nat)
    (f : StoredMessage → StoredMessage) (hf : ∀ m, (f m).msgId = m.msgId) :
    findMessage
        (messages.map (fun m => if m.msgId = messageId then f m else m))
        messageId = (findMessage messages messageId).map f := by
  unfold findMessage
  exact find?_keyed_update (fun m => m.msgId) messages messageId f hf

/-- How many receipts the message with this id carries. -/
def receiptCount (messages : List StoredMessage) (messageId : Nat) : Nat :=
  ((findMessage messages messageId).map (fun m => m.readBy.length)).getD 0

/-- message:read on an already-read message returns success and changes
nothing. -/
theorem markRead_already (t : ServerState) (sid : String) (mid n : Nat)
    (u : UserData) (hu : mapGet t.connectedUsers sid = some u)
    (hsid : u.senderId ≠ "") (m : StoredMessage)
    (hm : findMessage t.messages mid = some m)
    (hr : readsMessage u.senderId m = true) :
    markRead t sid mid n = (t, [⟨.toConn sid, .messageReadSuccess mid⟩]) := by
  simp [markRead, hu, hsid, hm, hr]

/-- Claim C2: for an authenticated reader and an existing message,
marking the message read a second time changes nothing at all — the
state is untouched, so the receipt count after two marks equals the
count after one — and the second call emits only message:read:success
to the caller, with no room broadcast. -/
theorem markRead_idempotent (s : ServerState) (sid : String) (mid : Nat)
    (n1 n2 : Nat) (u : UserData)
    (hu : mapGet s.connectedUsers sid = some u) (hsid : u.senderId ≠ "")
    (msg : StoredMessage) (hm : findMessage s.messages mid = some msg) :
    (markRead (markRead s sid mid n1).1 sid mid n2).1 =
      (markRead s sid mid n1).1 ∧
    receiptCount (markRead (markRead s sid mid n1).1 sid mid n2).1.messages
        mid =
      receiptCount (markRead s sid mid n1).1.messages mid ∧
    (markRead (markRead s sid mid n1).1 sid mid n2).2 =
      [⟨.toConn sid, .messageReadSuccess mid⟩] := by
  by_cases hr : readsMessage u.senderId msg = true
  · have h1 := markRead_already s sid mid n1 u hu hsid msg hm hr
    rw [h1]
    rw [markRead_already s sid mid n2 u hu hsid msg hm hr]
    exact ⟨rfl, rfl, rfl⟩
  · have hrf : readsMessage u.senderId msg = false :=
      Bool.eq_false_iff.mpr hr
    have h1 : (markRead s sid mid n1).1 =
        { s with messages := s.messages.map (fun m =>
            if m.msgId = mid
            then { m with readBy := m.readBy ++ [⟨u.senderId, n1⟩] }
            else m) } := by
      rcases hcur : u.currentRoom with _ | cur <;>
        simp [markRead, hu, hsid, hm, hrf, hcur]
    have hm1 : findMessage (markRead s sid mid n1).1.messages mid =
        some { msg with readBy := msg.readBy ++ [⟨u.senderId, n1⟩] } := by
      rw [h1]
      simpa [hm] using findMessage_update s.messages mid
        (fun m => { m with readBy := m.readBy ++ [⟨u.senderId, n1⟩] })
        (fun m => rfl)
    have hu1 : mapGet (markRead s sid mid n1).1.connectedUsers sid = some u := by
      rw [h1]; exact hu
    have hr1 : readsMessage u.senderId
        { msg with readBy := msg.readBy ++ [⟨u.senderId, n1⟩] } = true := by
      simp [readsMessage]
    rw [markRead_already (markRead s sid mid n1).1 sid mid n2 u hu1 hsid
      _ hm1 hr1]
    exact ⟨rfl, rfl, rfl⟩

/-- Witness for markRead_idempotent: alice double-marks message 20 of
stateM. -/
theorem markRead_idempotent_witness :
    (mapGet stateM.connectedUsers "s1" =
       some ⟨"alice", "u1", some "app1", none⟩ ∧
     UserData.senderId ⟨"alice", "u1", some "app1", none⟩ ≠ "" ∧
     findMessage stateM.messages 20 =
       some ⟨20, 1, "app1", "u9", "bob", "one", "text", [], 1⟩) ∧
    ((markRead (markRead stateM "s1" 20 6).1 "s1" 20 7).1 =
       (markRead stateM "s1" 20 6).1 ∧
     receiptCount
         (markRead (markRead stateM "s1" 20 6).1 "s1" 20 7).1.messages 20 =
       receiptCount (markRead stateM "s1" 20 6).1.messages 20 ∧
     (markRead (markRead stateM "s1" 20 6).1 "s1" 20 7).2 =
       [⟨.toConn "s1", .messageReadSuccess 20⟩]) :=
  ⟨⟨by decide, by decide, by decide⟩,
   markRead_idempotent stateM "s1" 20 6 7 ⟨"alice", "u1", some "app1", none⟩
     (by decide) (by decide) ⟨20, 1, "app1", "u9", "bob", "one", "text", [], 1⟩
     (by decide)⟩

/-! ### C4: batch read-mark -/

/-- The updateMany filter matches exactly the listed messages carrying no
receipt of this reader. -/
theorem batchModifies_iff (ids : List Nat) (senderId : String)
    (m : StoredMessage) :
    batchModifies ids senderId m = true ↔
      (m.msgId ∈ ids ∧ ∀ r ∈ m.readBy, r.odooId ≠ senderId) := by
  simp [batchModifies, readsMessage]

/-- Claim C4: an authenticated batch read-mark appends a receipt to
exactly the listed messages whose receipt list lacks the reader and
leaves every other message untouched; it reports precisely the number of
messages modified; and it broadcasts once to the current room, carrying
the full submitted id list, exactly when the session has a current room
and that number is positive. -/
theorem markReadMany_batch (s : ServerState) (sid : String) (ids : List Nat)
    (now : Nat) (u : UserData)
    (hu : mapGet s.connectedUsers sid = some u) (hsid : u.senderId ≠ "") :
    List.Forall₂ (fun m m' =>
        ((m.msgId ∈ ids ∧ ∀ r ∈ m.readBy, r.odooId ≠ u.senderId) →
          m' = { m with readBy := m.readBy ++ [⟨u.senderId, now⟩] }) ∧
        (¬ (m.msgId ∈ ids ∧ ∀ r ∈ m.readBy, r.odooId ≠ u.senderId) →
          m' = m))
      s.messages (markReadMany s sid ids now).1.messages ∧
    (∀ cur, u.currentRoom = some cur →
      (0 < (s.messages.filter (fun m => decide (m.msgId ∈ ids ∧
          ∀ r ∈ m.readBy, r.odooId ≠ u.senderId))).length →
        (markReadMany s sid ids now).2 =
          [⟨.toRoomAll cur, .messagesReadNotice ids ⟨u.senderId, now⟩⟩,
           ⟨.toConn sid, .messagesReadSuccess ids
             (s.messages.filter (fun m => decide (m.msgId ∈ ids ∧
               ∀ r ∈ m.readBy, r.odooId ≠ u.senderId))).length⟩]) ∧
      ((s.messages.filter (fun m => decide (m.msgId ∈ ids ∧
          ∀ r ∈ m.readBy, r.odooId ≠ u.senderId))).length = 0 →
        (markReadMany s sid ids now).2 =
          [⟨.toConn sid, .messagesReadSuccess ids 0⟩])) ∧
    (u.currentRoom = none →
      (markReadMany s sid ids now).2 =
        [⟨.toConn sid, .messagesReadSuccess ids
          (s.messages.filter (fun m => decide (m.msgId ∈ ids ∧
            ∀ r ∈ m.readBy, r.odooId ≠ u.senderId))).length⟩]) := by
  have hfe : ∀ m ∈ s.messages, batchModifies ids u.senderId m =
      decide (m.msgId ∈ ids ∧ ∀ r ∈ m.readBy, r.odooId ≠ u.senderId) := by
    intro m _
    rcases h : decide (m.msgId ∈ ids ∧ ∀ r ∈ m.readBy, r.odooId ≠ u.senderId)
    · rw [Bool.eq_false_iff]
      intro hb
      exact absurd ((batchModifies_iff ids u.senderId m).mp hb)
        (by simpa using h)
    · exact (batchModifies_iff ids u.senderId m).mpr (by simpa using h)
  have hflen : (s.messages.filter (batchModifies ids u.senderId)).length =
      (s.messages.filter (fun m => decide (m.msgId ∈ ids ∧
        ∀ r ∈ m.readBy, r.odooId ≠ u.senderId))).length := by
    rw [List.filter_congr hfe]
  refine ⟨?_, ?_, ?_⟩
  · have hmsgs : (markReadMany s sid ids now).1.messages =
        s.messages.map (fun m => if batchModifies ids u.senderId m
          then { m with readBy := m.readBy ++ [⟨u.senderId, now⟩] } else m) := by
      rcases hcur : u.currentRoom with _ | cur <;>
        simp [markReadMany, hu, hsid, hcur]
    rw [hmsgs, List.forall₂_map_right_iff, List.forall₂_same]
    intro m hm
    constructor
    · intro hp
      rw [if_pos]
      rw [hfe m hm]
      simpa using hp
    · intro hp
      rw [if_neg]
      rw [hfe m hm]
      simpa using hp
  · intro cur hcur
    constructor
    · intro hpos
      simp [markReadMany, hu, hsid, hcur]
      rw [hflen, if_pos hpos]
      simp
    · intro hzero
      simp [markReadMany, hu, hsid, hcur]
      rw [hflen, hzero]
      simp
  · intro hcur
    simp [markReadMany, hu, hsid, hcur]
    rw [hflen]
    simp

/-- A state for the batch scenario: alice in room 1; three messages in
the room, the middle one already read by her. -/
def stateR : ServerState :=
  { connectedUsers := [("s1", ⟨"alice", "u1", some "app1", some 1⟩)],
    socketFields := [("s1", ⟨some "alice", some "u1", some "app1"⟩)],
    live := ["s1"],
    subs := [("s1", 1)],
    rooms := [roomA],
    messages := [⟨40, 1, "app1", "u9", "bob", "a", "text", [], 1⟩,
                 ⟨41, 1, "app1", "u9", "bob", "b", "text", [⟨"u1", 3⟩], 2⟩,
                 ⟨42, 1, "app1", "u9", "bob", "c", "text", [], 3⟩],
    nextId := 50 }

/-- Witness for markReadMany_batch: a batch of three ids of which the
caller already read one reports modified count two, and the single room
broadcast carries all three ids. -/
theorem markReadMany_batch_witness :
    (mapGet stateR.connectedUsers "s1" =
       some ⟨"alice", "u1", some "app1", some 1⟩ ∧
     UserData.senderId ⟨"alice", "u1", some "app1", some 1⟩ ≠ "") ∧
    (stateR.messages.filter (fun m => decide (m.msgId ∈ [40, 41, 42] ∧
      ∀ r ∈ m.readBy, r.odooId ≠ "u1"))).length = 2 ∧
    (markReadMany stateR "s1" [40, 41, 42] 9).2 =
      [⟨.toRoomAll 1, .messagesReadNotice [40, 41, 42] ⟨"u1", 9⟩⟩,
       ⟨.toConn "s1", .messagesReadSuccess [40, 41, 42] 2⟩] :=
  ⟨⟨by decide, by decide⟩, by decide, by
    have h := ((markReadMany_batch stateR "s1" [40, 41, 42] 9
      ⟨"alice", "u1", some "app1", some 1⟩ (by decide) (by decide)).2.1
        1 rfl).1 (by decide)
    rw [h]
    decide⟩

/-! ### C6: room-name uniqueness per tenant -/

/-- room:create against a tenant already holding the name answers the
conflict error and changes nothing. -/
theorem roomCreate_conflict (t : ServerState) (sid : String)
    (name d : String) (p : Bool) (aid : Option String) (now : Nat)
    (appId : String) (h : resolveAppId t sid aid = some appId)
    (hne : appId ≠ "")
    (hex : (t.rooms.any (fun r =>
      decide (r.name = name ∧ r.applicationId = appId))) = true) :
    roomCreate t sid name d p aid now =
      (t, [⟨.toConn sid,
        .errorMsg "Room name already exists for this application"⟩]) := by
  have hex1 : ∃ x ∈ t.rooms, x.name = name ∧ x.applicationId = appId := by
    simpa using hex
  simp [roomCreate, h, hne, hex1]

/-- room:create with a fresh name for the tenant stores the new room and
answers room:created, broadcasting rooms:new when public. -/
theorem roomCreate_fresh (t : ServerState) (sid : String) (name d : String)
    (p : Bool) (aid : Option String) (now : Nat) (appId : String)
    (h : resolveAppId t sid aid = some appId) (hne : appId ≠ "")
    (hex : (t.rooms.any (fun r =>
      decide (r.name = name ∧ r.applicationId = appId))) = false) :
    roomCreate t sid name d p aid now =
      ({ t with
          rooms := t.rooms ++
            [⟨t.nextId, name, d, appId, jsStr (getFields t sid).senderId sid,
              p, [jsStr (getFields t sid).senderId sid], now⟩],
          nextId := t.nextId + 1 },
       ⟨.toConn sid, .roomCreated t.nextId name d⟩ ::
         (if p then [] else [⟨.toAll, .roomsNew t.nextId name d now⟩])) := by
  have hex1 : ∀ x ∈ t.rooms, x.name = name → ¬ x.applicationId = appId := by
    simpa using hex
  simp [roomCreate, h, hne, hex1]
  exact hex1

/-- Claim C6: a room creation in a tenant with a fresh name succeeds and
stores the room with the creator as sole participant; a second creation
with the same name resolving to the same tenant then fails with the
name-conflict error and stores nothing; a creation with the same name
resolving to a different tenant (fresh there) still succeeds. -/
theorem room_name_unique_per_tenant (s : ServerState)
    (sid1 sid2 sid3 : String) (name d1 d2 d3 : String) (p1 p2 p3 : Bool)
    (a1 a2 a3 : Option String) (t1 t2 t3 : Nat) (a b : String)
    (h1 : resolveAppId s sid1 a1 = some a) (ha : a ≠ "")
    (hno : ∀ r ∈ s.rooms, ¬(r.name = name ∧ r.applicationId = a)) :
    (∃ room, (roomCreate s sid1 name d1 p1 a1 t1).1.rooms =
        s.rooms ++ [room] ∧
      room.name = name ∧ room.applicationId = a ∧
      room.participants = [jsStr (getFields s sid1).senderId sid1] ∧
      ⟨.toConn sid1, .roomCreated room.roomId room.name room.description⟩ ∈
        (roomCreate s sid1 name d1 p1 a1 t1).2) ∧
    (resolveAppId (roomCreate s sid1 name d1 p1 a1 t1).1 sid2 a2 = some a →
      roomCreate (roomCreate s sid1 name d1 p1 a1 t1).1 sid2 name d2 p2 a2
          t2 =
        ((roomCreate s sid1 name d1 p1 a1 t1).1,
         [⟨.toConn sid2,
            .errorMsg "Room name already exists for this application"⟩])) ∧
    (resolveAppId (roomCreate s sid1 name d1 p1 a1 t1).1 sid3 a3 = some b →
      b ≠ "" → b ≠ a →
      (∀ r ∈ s.rooms, ¬(r.name = name ∧ r.applicationId = b)) →
      ∃ room2,
        (roomCreate (roomCreate s sid1 name d1 p1 a1 t1).1 sid3 name d3 p3
            a3 t3).1.rooms =
          (roomCreate s sid1 name d1 p1 a1 t1).1.rooms ++ [room2] ∧
        room2.name = name ∧ room2.applicationId = b ∧
        ⟨.toConn sid3,
           .roomCreated room2.roomId room2.name room2.description⟩ ∈
          (roomCreate (roomCreate s sid1 name d1 p1 a1 t1).1 sid3 name d3 p3
            a3 t3).2) := by
  have hany : (s.rooms.any (fun r =>
      decide (r.name = name ∧ r.applicationId = a))) = false := by
    apply List.any_eq_false.mpr
    intro r hr
    simpa using hno r hr
  have hfirst := roomCreate_fresh s sid1 name d1 p1 a1 t1 a h1 ha hany
  refine ⟨?_, ?_, ?_⟩
  · refine ⟨⟨s.nextId, name, d1, a, jsStr (getFields s sid1).senderId sid1,
      p1, [jsStr (getFields s sid1).senderId sid1], t1⟩, ?_, rfl, rfl, rfl, ?_⟩
    · rw [hfirst]
    · simp [hfirst]
  · intro h2
    have hany2 : ((roomCreate s sid1 name d1 p1 a1 t1).1.rooms.any (fun r =>
        decide (r.name = name ∧ r.applicationId = a))) = true := by
      rw [hfirst]
      simp
    exact roomCreate_conflict _ sid2 name d2 p2 a2 t2 a h2 ha hany2
  · intro h3 hb hba hno2
    have hany3 : ((roomCreate s sid1 name d1 p1 a1 t1).1.rooms.any (fun r =>
        decide (r.name = name ∧ r.applicationId = b))) = false := by
      rw [hfirst]
      apply List.any_eq_false.mpr
      intro r hr
      rcases List.mem_append.mp hr with hin | hin
      · simpa using hno2 r hin
      · simp only [List.mem_singleton] at hin
        subst hin
        simp only [decide_eq_true_eq, not_and]
        intro hnm happ
        exact hba happ.symm
    have hsecond := roomCreate_fresh (roomCreate s sid1 name d1 p1 a1 t1).1
      sid3 name d3 p3 a3 t3 b h3 hb hany3
    refine ⟨⟨(roomCreate s sid1 name d1 p1 a1 t1).1.nextId, name, d3, b,
      jsStr (getFields (roomCreate s sid1 name d1 p1 a1 t1).1 sid3).senderId
        sid3, p3,
      [jsStr (getFields (roomCreate s sid1 name d1 p1 a1 t1).1 sid3).senderId
        sid3], t3⟩, ?_, rfl, rfl, ?_⟩
    · rw [hsecond]
    · simp [hsecond]

/-- Witness for room_name_unique_per_tenant: creating "random" in tenant
app1 succeeds, a second "random" in app1 fails with the conflict error,
and "random" in tenant app2 succeeds. -/
theorem room_name_unique_per_tenant_witness :
    (resolveAppId stateA "s1" (some "app1") = some "app1" ∧
     ("app1" : String) ≠ "" ∧
     ∀ r ∈ stateA.rooms,
       ¬(r.name = "random" ∧ r.applicationId = "app1")) ∧
    ((∃ room,
        (roomCreate stateA "s1" "random" "x" false (some "app1")
          11).1.rooms = stateA.rooms ++ [room] ∧
        room.name = "random" ∧ room.applicationId = "app1" ∧
        room.participants = [jsStr (getFields stateA "s1").senderId "s1"] ∧
        ⟨.toConn "s1", .roomCreated room.roomId room.name room.description⟩ ∈
          (roomCreate stateA "s1" "random" "x" false (some "app1") 11).2) ∧
     (roomCreate (roomCreate stateA "s1" "random" "x" false (some "app1")
          11).1 "s1" "random" "y" false (some "app1") 12 =
        ((roomCreate stateA "s1" "random" "x" false (some "app1") 11).1,
         [⟨.toConn "s1",
            .errorMsg "Room name already exists for this application"⟩])) ∧
     (∃ room2,
        (roomCreate (roomCreate stateA "s1" "random" "x" false (some "app1")
            11).1 "s1" "random" "z" false (some "app2") 13).1.rooms =
          (roomCreate stateA "s1" "random" "x" false (some "app1")
            11).1.rooms ++ [room2] ∧
        room2.name = "random" ∧ room2.applicationId = "app2" ∧
        ⟨.toConn "s1",
           .roomCreated room2.roomId room2.name room2.description⟩ ∈
          (roomCreate (roomCreate stateA "s1" "random" "x" false
            (some "app1") 11).1 "s1" "random" "z" false (some "app2")
            13).2)) := by
  have T := room_name_unique_per_tenant stateA "s1" "s1" "s1" "random"
    "x" "y" "z" false false false (some "app1") (some "app1") (some "app2")
    11 12 13 "app1" "app2" (by decide) (by decide) (by decide)
  exact ⟨⟨by decide, by decide, by decide⟩,
    T.1, T.2.1 (by decide),
    T.2.2 (by decide) (by decide) (by decide) (by decide)⟩

/-! ### C9: disconnect teardown -/

theorem userConnect_live (s : ServerState) (sid u sd a : String) :
    (userConnect s sid u sd a).1.live = s.live := rfl

theorem roomJoin_live (s : ServerState) (sid : String) (roomId : Nat)
    (saveOk : Bool) : (roomJoin s sid roomId saveOk).1.live = s.live := by
  rcases hf : findRoom s.rooms roomId with _ | room
  · simp [roomJoin, hf]
  · simp only [roomJoin, hf]
    split
    · simp
    · split
      · simp
      · simp

theorem roomLeave_live (s : ServerState) (sid : String) :
    (roomLeave s sid).1.live = s.live := by
  rcases hu : mapGet s.connectedUsers sid with _ | u
  · simp [roomLeave, hu]
  · rcases hc : u.currentRoom with _ | cur <;> simp [roomLeave, hu, hc]

theorem messageSend_live (s : ServerState) (sid content : String)
    (now : Nat) : (messageSend s sid content now).1.live = s.live := by
  rcases hu : mapGet s.connectedUsers sid with _ | u
  · simp [messageSend, hu]
  · rcases hc : u.currentRoom with _ | cur <;> simp [messageSend, hu, hc]

theorem markRead_live (s : ServerState) (sid : String) (mid now : Nat) :
    (markRead s sid mid now).1.live = s.live := by
  rcases hu : mapGet s.connectedUsers sid with _ | u
  · simp [markRead, hu]
  · by_cases hsid : u.senderId = ""
    · simp [markRead, hu, hsid]
    · rcases hm : findMessage s.messages mid with _ | msg
      · simp [markRead, hu, hsid, hm]
      · by_cases hr : readsMessage u.senderId msg = true
        · simp [markRead, hu, hsid, hm, hr]
        · rcases hc : u.currentRoom with _ | cur <;>
            simp [markRead, hu, hsid, hm, hr, hc]

theorem markReadMany_live (s : ServerState) (sid : String)
    (ids : List Nat) (now : Nat) :
    (markReadMany s sid ids now).1.live = s.live := by
  rcases hu : mapGet s.connectedUsers sid with _ | u
  · simp [markReadMany, hu]
  · by_cases hsid : u.senderId = ""
    · simp [markReadMany, hu, hsid]
    · rcases hc : u.currentRoom with _ | cur <;>
        simp [markReadMany, hu, hsid, hc]

theorem userTyping_live (s : ServerState) (sid : String) :
    (userTyping s sid).1.live = s.live := by
  rcases hu : mapGet s.connectedUsers sid with _ | u
  · simp [userTyping, hu]
  · rcases hc : u.currentRoom with _ | cur <;> simp [userTyping, hu, hc]

theorem userStopTyping_live (s : ServerState) (sid : String) :
    (userStopTyping s sid).1.live = s.live := by
  rcases hu : mapGet s.connectedUsers sid with _ | u
  · simp [userStopTyping, hu]
  · rcases hc : u.currentRoom with _ | cur <;> simp [userStopTyping, hu, hc]

theorem roomCreate_live (s : ServerState) (sid name d : String)
    (p : Bool) (aid : Option String) (now : Nat) :
    (roomCreate s sid name d p aid now).1.live = s.live := by
  rcases hr : resolveAppId s sid aid with _ | appId
  · simp [roomCreate, hr]
  · by_cases ha : appId = ""
    · simp [roomCreate, hr, ha]
    · simp only [roomCreate, hr]
      split
      · simp
      · split
        · simp
        · simp

theorem roomUsersScan_live (s : ServerState) (sid : String) :
    (roomUsersScan s sid).1.live = s.live := by
  rcases hu : mapGet s.connectedUsers sid with _ | u
  · simp [roomUsersScan, hu]
  · rcases hc : u.currentRoom with _ | cur <;> simp [roomUsersScan, hu, hc]

theorem disconnect_live (s : ServerState) (sid : String) :
    (disconnect s sid).1.live =
      s.live.filter (fun x => decide (¬ x = sid)) := rfl

/-- No event ever puts a connection id back into the set of live
sockets. -/
theorem step_preserves_not_live (s : ServerState) (e : Event) (c : String)
    (hc : c ∉ s.live) : c ∉ (step s e).1.live := by
  cases e with
  | userConnect sid u sd a => rw [step, userConnect_live]; exact hc
  | roomJoin sid roomId saveOk => rw [step, roomJoin_live]; exact hc
  | roomLeave sid => rw [step, roomLeave_live]; exact hc
  | messageSend sid content now => rw [step, messageSend_live]; exact hc
  | messageRead sid mid now => rw [step, markRead_live]; exact hc
  | messagesRead sid ids now => rw [step, markReadMany_live]; exact hc
  | typingStart sid => rw [step, userTyping_live]; exact hc
  | typingStop sid => rw [step, userStopTyping_live]; exact hc
  | roomCreate sid n d p a now => rw [step, roomCreate_live]; exact hc
  | roomUsers sid => rw [step, roomUsersScan_live]; exact hc
  | disconnect sid =>
      rw [step, disconnect_live]
      intro h
      exact hc (List.mem_of_mem_filter h)

/-- Running any event sequence never revives a dead connection id. -/
theorem run_preserves_not_live (evs : List Event) :
    ∀ s : ServerState, ∀ c : String, c ∉ s.live → c ∉ (run s evs).live := by
  induction evs with
  | nil => intro s c hc; exact hc
  | cons e rest ih =>
      intro s c hc
      exact ih (step s e).1 c (step_preserves_not_live s e c hc)

/-- Nothing is delivered to a connection that is not live. -/
theorem delivered_eq_false_of_not_live (s : ServerState) (em : Emit)
    (c : String) (hc : c ∉ s.live) : delivered s em c = false := by
  simp [delivered, hc]

/-- Claim C9: once the disconnect of a connection has been processed, the
Connection Registry holds no entry for it, and whatever events are
processed afterwards, none of their emits is delivered to that
connection. -/
theorem disconnect_unregisters_and_silences (s : ServerState) (c : String)
    (evs : List Event) (e : Event) :
    mapGet (disconnect s c).1.connectedUsers c = none ∧
    ∀ em ∈ (step (run (disconnect s c).1 evs) e).2,
      delivered (step (run (disconnect s c).1 evs) e).1 em c = false := by
  constructor
  · exact mapGet_mapDelete_same s.connectedUsers c
  · intro em _
    have h0 : c ∉ (disconnect s c).1.live := by
      rw [disconnect_live]
      intro h
      have := List.of_mem_filter h
      simp at this
  -- the filtered list cannot contain c
    have h1 : c ∉ (run (disconnect s c).1 evs).live :=
      run_preserves_not_live evs (disconnect s c).1 c h0
    have h2 : c ∉ (step (run (disconnect s c).1 evs) e).1.live :=
      step_preserves_not_live _ e c h1
    exact delivered_eq_false_of_not_live _ em c h2

end ChatApi
